import Mathlib

/-!
Verification development for the Salesforce-to-Azure incremental sync engine
(`code_to_import.py`).  The Python source is shallowly embedded: pure pieces
become Lean functions; the database connection, blob store, and Salesforce
stream are modelled as explicit state threaded through the orchestrator loop.
Timestamps are epoch milliseconds (`Nat`); the ISO-8601 rendering produced by
`datetime.isoformat` is injective on that value, so the watermark stores the
millisecond value directly.
-/

namespace LendzSync

/-- Value of a timestamp-bearing field as the Python code sees it: absent
(`null`, Python `None`), present and parseable as epoch milliseconds, or
present but failing `float()` conversion (`junk`). -/
inductive PyTS where
  | null
  | ts (ms : Nat)
  | junk
deriving DecidableEq, Repr

/-- Embeds the Python check `x is not None`. -/
def PyTS.isNotNone : PyTS → Bool
  | .null => false
  | _ => true

/-- Embeds `datetime.fromtimestamp(float(x) / 1000, tz=timezone.utc)`:
succeeds exactly when the raw value converts, and the resulting datetime
compares the same way the millisecond value does. -/
def PyTS.parse : PyTS → Option Nat
  | .ts ms => some ms
  | _ => none

/-- Python truthiness of an optional string field: `None` and `""` are falsy. -/
def truthyStr : Option String → Bool
  | none => false
  | some s => s != ""

/-- Characters removed by Python `str.strip()` for the strings this code
builds (only plain spaces occur). -/
def stripChars (l : List Char) : List Char :=
  ((l.dropWhile (fun c => c = ' ')).reverse.dropWhile (fun c => c = ' ')).reverse

/-- Embeds Python `str.strip()`. -/
def pyStrip (s : String) : String :=
  String.mk (stripChars s.toList)

/-- Embeds the Python replace of each space by an underscore. -/
def replaceSpaces (s : String) : String :=
  String.mk (s.toList.map (fun c => if c = ' ' then '_' else c))

/-- Digit run to a natural number, for the embedding of Python `int()`. -/
def digitsToNat (l : List Char) : Nat :=
  l.foldl (fun acc c => acc * 10 + (c.toNat - '0'.toNat)) 0

/-- Embeds Python `int(s)` on the strings relevant here: optional surrounding
spaces, optional sign, a nonempty digit run; anything else raises
`ValueError`, modelled as `none`. -/
def pyIntOfString (s : String) : Option Int :=
  let l := stripChars s.toList
  let neg := match l with
    | '-' :: _ => true
    | _ => false
  let core := match l with
    | '-' :: rest => rest
    | '+' :: rest => rest
    | l' => l'
  if core.isEmpty then none
  else if core.all Char.isDigit then
    some ((if neg then (-1 : Int) else 1) * (digitsToNat core : Int))
  else none

/-- Embeds the `AZURE_DB_BATCH_SIZE` handling (lines 195-202 and 532-539 of
the source): read the environment value with default string 50, then `int(...)`,
rejecting non-positive values; on `ValueError` a warning is printed and the
size falls back to 5.  Returns the effective batch size and whether the
warning fired. -/
def parseBatchSize (envVal : Option String) : Nat × Bool :=
  let s := envVal.getD "50"
  match pyIntOfString s with
  | some n => if n ≤ 0 then (5, true) else (n.toNat, false)
  | none => (5, true)

/-- One step of the watermark-maximum scan shared by both sync loops
(lines 361-374 and 629-635): skip items whose timestamp fails to parse, and
replace the running maximum only on a strict increase, so ties keep the
first-seen record id. -/
def wmStep {α : Type} (ts : α → Option Nat) (rid : α → String)
    (acc : Option (Nat × String)) (b : α) : Option (Nat × String) :=
  match ts b with
  | none => acc
  | some t =>
    match acc with
    | none => some (t, rid b)
    | some (m, r) => if m < t then some (t, rid b) else some (m, r)

/-- The full watermark-maximum scan over a batch. -/
def computeMaxBy {α : Type} (ts : α → Option Nat) (rid : α → String)
    (batch : List α) : Option (Nat × String) :=
  batch.foldl (wmStep ts rid) none

/-- Specification-side maximum parseable timestamp of a batch (unparseable
items contribute 0). -/
def maxTsBy {α : Type} (ts : α → Option Nat) (batch : List α) : Nat :=
  batch.foldr (fun b m => max ((ts b).getD 0) m) 0

theorem maxTsBy_cons {α : Type} (ts : α → Option Nat) (b : α) (l : List α) :
    maxTsBy ts (b :: l) = max ((ts b).getD 0) (maxTsBy ts l) := rfl

theorem getD_le_maxTsBy {α : Type} (ts : α → Option Nat) (l : List α) :
    ∀ b ∈ l, (ts b).getD 0 ≤ maxTsBy ts l := by
  induction l with
  | nil => intro b h; cases h
  | cons a l ih =>
    intro b hb
    rw [maxTsBy_cons]
    rcases List.mem_cons.mp hb with h | h
    · subst h; exact le_max_left _ _
    · exact le_trans (ih b h) (le_max_right _ _)

theorem wmFold_le {α : Type} (ts : α → Option Nat) (rid : α → String)
    (l : List α) :
    ∀ (m : Nat) (r : String), maxTsBy ts l ≤ m →
      l.foldl (wmStep ts rid) (some (m, r)) = some (m, r) := by
  induction l with
  | nil => intro m r _; rfl
  | cons b l ih =>
    intro m r h
    rw [maxTsBy_cons, max_le_iff] at h
    have hstep : wmStep ts rid (some (m, r)) b = some (m, r) := by
      cases hts : ts b with
      | none => simp [wmStep, hts]
      | some t =>
        have ht : t ≤ m := by simpa [hts] using h.1
        simp [wmStep, hts, Nat.not_lt.mpr ht]
    rw [List.foldl_cons, hstep]
    exact ih m r h.2

theorem wmFold_gt {α : Type} (ts : α → Option Nat) (rid : α → String)
    (l : List α) :
    ∀ (m : Nat) (r : String), m < maxTsBy ts l →
      ∃ b₀, l.find? (fun b => decide (ts b = some (maxTsBy ts l))) = some b₀ ∧
        ts b₀ = some (maxTsBy ts l) ∧
        l.foldl (wmStep ts rid) (some (m, r)) = some (maxTsBy ts l, rid b₀) := by
  induction l with
  | nil => intro m r h; simp [maxTsBy] at h
  | cons b l ih =>
    intro m r h
    cases hts : ts b with
    | none =>
      have hM : maxTsBy ts (b :: l) = maxTsBy ts l := by
        simp [maxTsBy_cons, hts]
      rw [hM] at h ⊢
      obtain ⟨b₀, hfind, hts0, hfold⟩ := ih m r h
      refine ⟨b₀, ?_, hts0, ?_⟩
      · rw [List.find?_cons_of_neg _ (by simp [hts])]
        exact hfind
      · rw [List.foldl_cons]
        have hstep : wmStep ts rid (some (m, r)) b = some (m, r) := by
          simp [wmStep, hts]
        rw [hstep]
        exact hfold
    | some t =>
      have hMc : maxTsBy ts (b :: l) = max t (maxTsBy ts l) := by
        simp [maxTsBy_cons, hts]
      by_cases hcmp : maxTsBy ts l ≤ t
      · have hM : maxTsBy ts (b :: l) = t := by rw [hMc]; exact max_eq_left hcmp
        have htm : m < t := by rw [hM] at h; exact h
        refine ⟨b, ?_, ?_, ?_⟩
        · exact List.find?_cons_of_pos _ (by simp [hts, hM])
        · rw [hts, hM]
        · rw [List.foldl_cons]
          have hstep : wmStep ts rid (some (m, r)) b = some (t, rid b) := by
            simp [wmStep, hts, htm]
          rw [hstep, hM]
          exact wmFold_le ts rid l t (rid b) hcmp
      · push_neg at hcmp
        have hM : maxTsBy ts (b :: l) = maxTsBy ts l := by
          rw [hMc]; exact max_eq_right hcmp.le
        rw [hM] at h ⊢
        have hbne : ¬ (decide (ts b = some (maxTsBy ts l)) = true) := by
          simp [hts]
          exact Nat.ne_of_lt hcmp
        by_cases htm : m < t
        · obtain ⟨b₀, hfind, hts0, hfold⟩ := ih t (rid b) hcmp
          refine ⟨b₀, ?_, hts0, ?_⟩
          · exact (List.find?_cons_of_neg
              (p := fun x => decide (ts x = some (maxTsBy ts l))) l hbne).trans hfind
          · rw [List.foldl_cons]
            have hstep : wmStep ts rid (some (m, r)) b = some (t, rid b) := by
              simp [wmStep, hts, htm]
            rw [hstep]
            exact hfold
        · push_neg at htm
          obtain ⟨b₀, hfind, hts0, hfold⟩ := ih m r h
          refine ⟨b₀, ?_, hts0, ?_⟩
          · exact (List.find?_cons_of_neg
              (p := fun x => decide (ts x = some (maxTsBy ts l))) l hbne).trans hfind
          · rw [List.foldl_cons]
            have hstep : wmStep ts rid (some (m, r)) b = some (m, r) := by
              simp [wmStep, hts, Nat.not_lt.mpr htm]
            rw [hstep]
            exact hfold

theorem computeMaxBy_spec {α : Type} (ts : α → Option Nat) (rid : α → String)
    (batch : List α) (hne : batch ≠ [])
    (hp : ∀ b ∈ batch, (ts b).isSome = true) :
    ∃ b₀, batch.find? (fun b => decide (ts b = some (maxTsBy ts batch))) = some b₀ ∧
      ts b₀ = some (maxTsBy ts batch) ∧
      computeMaxBy ts rid batch = some (maxTsBy ts batch, rid b₀) := by
  match batch with
  | [] => exact absurd rfl hne
  | b :: l =>
    obtain ⟨t, hts⟩ := Option.isSome_iff_exists.mp (hp b (List.mem_cons_self b l))
    have hMc : maxTsBy ts (b :: l) = max t (maxTsBy ts l) := by
      simp [maxTsBy_cons, hts]
    have hfold0 : computeMaxBy ts rid (b :: l) =
        l.foldl (wmStep ts rid) (some (t, rid b)) := by
      have hstep : wmStep ts rid none b = some (t, rid b) := by
        simp [wmStep, hts]
      rw [computeMaxBy, List.foldl_cons, hstep]
    by_cases hcmp : maxTsBy ts l ≤ t
    · have hM : maxTsBy ts (b :: l) = t := by rw [hMc]; exact max_eq_left hcmp
      refine ⟨b, ?_, by rw [hts, hM], ?_⟩
      · exact List.find?_cons_of_pos _ (by simp [hts, hM])
      · rw [hfold0, wmFold_le ts rid l t (rid b) hcmp, hM]
    · push_neg at hcmp
      have hM : maxTsBy ts (b :: l) = maxTsBy ts l := by
        rw [hMc]; exact max_eq_right hcmp.le
      obtain ⟨b₀, hfind, hts0, hfold⟩ := wmFold_gt ts rid l t (rid b) hcmp
      refine ⟨b₀, ?_, ?_, ?_⟩
      · rw [hM]
        rw [List.find?_cons_of_neg _ (by simp [hts]; exact Nat.ne_of_lt hcmp)]
        exact hfind
      · rw [hM]; exact hts0
      · rw [hfold0, hM]; exact hfold

/-- Per-record SQL status strings assigned by the orchestrator loops. -/
inductive SqlStatus where
  | skipped
  | pendingBatchUpdate
  | successBatched
  | successBatchedFinal
  | failedBatched
  | failedBatchedFinal
  | skippedNoValidTs
  | skippedNoValidTsFinal
  | notAttemptedDownloadFailed
  | notAttemptedProcessingFailed
  | notAttemptedMissingData
deriving DecidableEq, Repr

/-- Outcome of the download-and-upload attempt for one record, supplied as an
environment oracle: success, `requests.exceptions.RequestException`, or any
other exception raised while streaming. -/
inductive TransferOutcome where
  | ok
  | netErr (msg : String)
  | procErr (msg : String)
deriving DecidableEq, Repr

/-- A ContentVersion record as yielded by the bulk query, restricted to the
fields the engine reads, plus the transfer oracle for this record. -/
structure CVRecord where
  id : String
  contentDocumentId : Option String
  versionDataUrl : Option String
  title : Option String
  fileExtension : Option String
  systemModstamp : PyTS
  transfer : TransferOutcome
deriving DecidableEq, Repr

/-- A processed record: the source record plus the engine-added outcome
fields (`AzureBlobUrl`, `DownloadError`, `SqlUpdateStatus`,
`LastSystemModstampInBatch`). -/
structure CVProcessed where
  src : CVRecord
  azureBlobUrl : Option String
  downloadError : Option String
  sqlUpdateStatus : SqlStatus
  lastSystemModstampInBatch : Option Nat
deriving DecidableEq, Repr

/-- One tuple of `db_update_batch`:
`(azure_blob_url, content_document_id, system_modstamp, content_version_id)`. -/
structure CVBatchItem where
  azureBlobUrl : String
  contentDocumentId : String
  systemModstamp : PyTS
  contentVersionId : String
deriving DecidableEq, Repr

/-- A row of the sink table `[dbo].[ContentVersion]`, restricted to the two
columns the batch statement touches. -/
structure CVSinkRow where
  contentDocumentId : String
  azureBlobUrl : Option String
deriving DecidableEq, Repr

/-- A row of `[dbo].[ContentDocumentLink]`, both as sink row and as incoming
merge source (`batch_data` tuple
`(Id, LinkedEntityId, ContentDocumentId, IsDeleted, SystemModstamp, ShareType, Visibility)`). -/
structure CDLRow where
  id : String
  linkedEntityId : Option String
  contentDocumentId : String
  isDeleted : Bool
  systemModstamp : Nat
  shareType : Option String
  visibility : Option String
deriving DecidableEq, Repr

/-- The watermark row of `[dbo].[SyncState]` for one stream name. -/
structure SyncState where
  lastRecordId : String
  lastSystemModstamp : Nat
deriving DecidableEq, Repr

/-- Console events the engine emits that the claims distinguish. -/
inductive LogEvent where
  | syncStateUpdated (stateName : String)
  | syncStateError (stateName : String)
deriving DecidableEq, Repr

/-- Effect of the set-valued `UPDATE T SET T.AzureBlobUrl = V.AzureBlobUrl
FROM [dbo].[ContentVersion] AS T JOIN (VALUES ...) AS V ON
T.ContentDocumentId = V.ContentDocumentId` of `_execute_db_batch`: every sink
row with a matching batch key takes the batch value; no row is ever
inserted. -/
def applyCVUpdate (sink : List CVSinkRow) (batch : List CVBatchItem) :
    List CVSinkRow :=
  sink.map fun t =>
    match batch.find? (fun v => decide (v.contentDocumentId = t.contentDocumentId)) with
    | some v => { t with azureBlobUrl := some v.azureBlobUrl }
    | none => t

/-- The `cursor.rowcount` of that UPDATE: the number of matched sink rows. -/
def cvRowcount (sink : List CVSinkRow) (batch : List CVBatchItem) : Nat :=
  (sink.filter (fun t =>
    (batch.find? (fun v => decide (v.contentDocumentId = t.contentDocumentId))).isSome)).length

/-- Embeds `_execute_db_batch` (lines 16-47): empty batch returns 0; on a
database error the transaction is rolled back (the sink is left as it was)
and -1 is returned; otherwise the single set-valued UPDATE is committed and
`cursor.rowcount` returned.  `dbOk` is the oracle for whether the statement
raises `pyodbc.Error`. -/
def execDbBatch (dbOk : Bool) (sink : List CVSinkRow)
    (batch : List CVBatchItem) : List CVSinkRow × Int :=
  if batch.isEmpty then (sink, 0)
  else if dbOk then (applyCVUpdate sink batch, Int.ofNat (cvRowcount sink batch))
  else (sink, -1)

/-- Effect of one source row of the `MERGE [dbo].[ContentDocumentLink]`
statement of `_execute_cdl_db_batch`: when a sink row with the same `Id`
exists it is replaced only if its stored `SystemModstamp` is strictly older
than the incoming one; when no row matches, the incoming row is inserted. -/
def cdlMergeRow (sink : List CDLRow) (src : CDLRow) : List CDLRow :=
  if sink.any (fun t => decide (t.id = src.id)) then
    sink.map (fun t =>
      if t.id = src.id ∧ t.systemModstamp < src.systemModstamp then src else t)
  else
    sink ++ [src]

/-- The whole set-valued MERGE over a batch (all ids in one Salesforce batch
are distinct, so row-by-row folding equals the set-valued semantics). -/
def cdlApplyMerge (sink : List CDLRow) (batch : List CDLRow) : List CDLRow :=
  batch.foldl cdlMergeRow sink

/-- The `cursor.rowcount` of the MERGE: inserted plus updated rows. -/
def cdlMergeRowcount (sink : List CDLRow) (batch : List CDLRow) : Nat :=
  (batch.filter (fun s =>
    match sink.find? (fun t => decide (t.id = s.id)) with
    | some t => decide (t.systemModstamp < s.systemModstamp)
    | none => true)).length

/-- Embeds `_execute_cdl_db_batch` (lines 49-91), analogous to
`execDbBatch`: rollback on error, commit-and-rowcount otherwise. -/
def execCdlDbBatch (dbOk : Bool) (sink : List CDLRow) (batch : List CDLRow) :
    List CDLRow × Int :=
  if batch.isEmpty then (sink, 0)
  else if dbOk then (cdlApplyMerge sink batch, Int.ofNat (cdlMergeRowcount sink batch))
  else (sink, -1)

/-- Embeds `_update_sync_state` (lines 93-121): on success the watermark row
is upserted and `True` returned; on a database error the transaction is
rolled back (the stored watermark is unchanged), a dedicated error line is
printed, and `False` returned. -/
def updateSyncState (wmOk : Bool) (stateName : String) (st : Option SyncState)
    (lastRecordId : String) (lastMs : Nat) :
    Option SyncState × Bool × List LogEvent :=
  if wmOk then
    (some { lastRecordId := lastRecordId, lastSystemModstamp := lastMs },
      true, [LogEvent.syncStateUpdated stateName])
  else (st, false, [LogEvent.syncStateError stateName])

/-- Stream name used by the ContentVersion sync. -/
def cvStateName : String := "ContentVersionSync"

/-- The watermark scan of the ContentVersion flush (lines 358-374 and
427-442), instantiating the generic fold at the timestamp and
record-id slots. -/
def cvComputeMax (batch : List CVBatchItem) : Option (Nat × String) :=
  computeMaxBy (fun b => b.systemModstamp.parse) (fun b => b.contentVersionId) batch

/-- Specification-side maximum timestamp of a ContentVersion batch. -/
def cvBatchMaxTs (batch : List CVBatchItem) : Nat :=
  maxTsBy (fun b => b.systemModstamp.parse) batch

/-- The watermark scan of the ContentDocumentLink flush (lines 626-635 and
681-689); the timestamps there are already-converted datetimes, hence always
parseable. -/
def cdlComputeMax (batch : List CDLRow) : Option (Nat × String) :=
  computeMaxBy (fun r => some r.systemModstamp) (fun r => r.id) batch

/-- Specification-side maximum timestamp of a ContentDocumentLink batch. -/
def cdlBatchMaxTs (batch : List CDLRow) : Nat :=
  maxTsBy (fun r => some r.systemModstamp) batch

/-- Marks every record still in `Pending Batch Update` with the outcome
status of the batch just flushed (the rescan loops at lines 385-398 and
452-465). -/
def markPendingStatus (new : SqlStatus) (r : CVProcessed) : CVProcessed :=
  if r.sqlUpdateStatus = SqlStatus.pendingBatchUpdate then
    { r with sqlUpdateStatus := new }
  else r

/-- The success-branch variant, which also records the batch watermark on the
record. -/
def markPendingSuccess (new : SqlStatus) (wmMs : Nat) (r : CVProcessed) :
    CVProcessed :=
  if r.sqlUpdateStatus = SqlStatus.pendingBatchUpdate then
    { r with sqlUpdateStatus := new, lastSystemModstampInBatch := some wmMs }
  else r

/-- Result of one flush of the ContentVersion batch: the updated sink,
watermark and processed list, whether `_update_sync_state` was invoked and
with which `(record id, timestamp)` arguments, the emitted log events, and
the `rows_affected` value. -/
structure CVFlushResult where
  sink : List CVSinkRow
  syncState : Option SyncState
  processed : List CVProcessed
  syncStateCall : Option (String × Nat)
  log : List LogEvent
  rowsAffected : Int
deriving Repr

/-- Embeds the flush block of
`download_content_versions_and_files_to_azure_blob_and_sql_batched`
(lines 351-399 mid-loop with `final = false`, lines 420-465 after the loop
with `final = true`): execute the batch statement; if `rows_affected >= 0`
scan for the maximum timestamp, call `_update_sync_state` when one exists
(its Boolean result is ignored), and mark pending records with the batch
outcome; on `rows_affected < 0` mark pending records failed and leave the
watermark alone. -/
def cvFlush (dbOk wmOk : Bool) (final : Bool) (sink : List CVSinkRow)
    (st : Option SyncState) (proc : List CVProcessed)
    (batch : List CVBatchItem) : CVFlushResult :=
  if 0 ≤ (execDbBatch dbOk sink batch).2 then
    match cvComputeMax batch with
    | some (m, rid) =>
      { sink := (execDbBatch dbOk sink batch).1
        syncState := (updateSyncState wmOk cvStateName st rid m).1
        processed := proc.map (markPendingSuccess
          (if final then SqlStatus.successBatchedFinal else SqlStatus.successBatched) m)
        syncStateCall := some (rid, m)
        log := (updateSyncState wmOk cvStateName st rid m).2.2
        rowsAffected := (execDbBatch dbOk sink batch).2 }
    | none =>
      { sink := (execDbBatch dbOk sink batch).1
        syncState := st
        processed := proc.map (markPendingStatus
          (if final then SqlStatus.skippedNoValidTsFinal else SqlStatus.skippedNoValidTs))
        syncStateCall := none
        log := []
        rowsAffected := (execDbBatch dbOk sink batch).2 }
  else
    { sink := (execDbBatch dbOk sink batch).1
      syncState := st
      processed := proc.map (markPendingStatus
        (if final then SqlStatus.failedBatchedFinal else SqlStatus.failedBatched))
      syncStateCall := none
      log := []
      rowsAffected := (execDbBatch dbOk sink batch).2 }

/-- Run environment: effective batch size, per-flush commit and
watermark-write oracles (indexed by flush number), and the storage account
and container names used to build blob URLs. -/
structure CVEnv where
  batchSize : Nat
  dbOk : Nat → Bool
  wmOk : Nat → Bool
  storageAccount : String
  containerName : String

/-- Mutable state of one ContentVersion run: `processed_records`,
`db_update_batch`, the number of flushes so far, the sink table, the
watermark row, and emitted log events. -/
structure CVState where
  processed : List CVProcessed
  batch : List CVBatchItem
  flushCount : Nat
  sink : List CVSinkRow
  syncState : Option SyncState
  log : List LogEvent
deriving Repr

/-- Embeds the blob-name sanitisation of lines 311-318:
`"".join(c for c in (title or id) if c.isalnum() or c in " ._-")`, `.strip()`,
extension or `.bin`, spaces to underscores, id prefix. -/
def cvBlobName (title : Option String) (fileExtension : Option String)
    (cvId : String) : String :=
  let base := pyStrip (String.mk (((if truthyStr title then title.getD "" else cvId)).toList.filter
    (fun c => c.isAlphanum || c = ' ' || c = '.' || c = '_' || c = '-')))
  let withExt := if truthyStr fileExtension then base ++ "." ++ fileExtension.getD ""
    else base ++ ".bin"
  cvId ++ "_" ++ replaceSpaces withExt

/-- The blob URL of line 320. -/
def cvBlobUrl (acct container : String) (title fileExtension : Option String)
    (cvId : String) : String :=
  "https://" ++ acct ++ ".blob.core.windows.net/" ++ container ++ "/" ++
    cvBlobName title fileExtension cvId

/-- A freshly initialised processed record (lines 303-306). -/
def initProcessed (r : CVRecord) : CVProcessed :=
  { src := r
    azureBlobUrl := none
    downloadError := none
    sqlUpdateStatus := SqlStatus.skipped
    lastSystemModstampInBatch := none }

/-- Embeds one iteration of the record loop (lines 294-417).  Required-field
check (Python truthiness for the URL and document id, `is not None` for the
timestamp); on success the transfer runs, the tuple joins the batch, and a
full batch flushes — note that the status rescan of the flush runs over
`processed_records` BEFORE the current record is appended (line 417), exactly
as in the source; transfer failures are recorded on the record only; records
failing the field check are marked `Not Attempted (Missing Data)`. -/
def cvStep (env : CVEnv) (s : CVState) (r : CVRecord) : CVState :=
  if truthyStr r.versionDataUrl && truthyStr r.contentDocumentId &&
      r.systemModstamp.isNotNone then
    match r.transfer with
    | TransferOutcome.ok =>
      let url := cvBlobUrl env.storageAccount env.containerName r.title r.fileExtension r.id
      let batchItem : CVBatchItem :=
        { azureBlobUrl := url
          contentDocumentId := r.contentDocumentId.getD ""
          systemModstamp := r.systemModstamp
          contentVersionId := r.id }
      let p : CVProcessed :=
        { (initProcessed r) with
          azureBlobUrl := some url
          downloadError := some "None"
          sqlUpdateStatus := SqlStatus.pendingBatchUpdate }
      if env.batchSize ≤ (s.batch ++ [batchItem]).length then
        let fr := cvFlush (env.dbOk s.flushCount) (env.wmOk s.flushCount) false
          s.sink s.syncState s.processed (s.batch ++ [batchItem])
        { processed := fr.processed ++ [p]
          batch := []
          flushCount := s.flushCount + 1
          sink := fr.sink
          syncState := fr.syncState
          log := s.log ++ fr.log }
      else
        { s with
          processed := s.processed ++ [p]
          batch := s.batch ++ [batchItem] }
    | TransferOutcome.netErr msg =>
      { s with processed := s.processed ++
          [{ (initProcessed r) with
             downloadError := some msg
             sqlUpdateStatus := SqlStatus.notAttemptedDownloadFailed }] }
    | TransferOutcome.procErr msg =>
      { s with processed := s.processed ++
          [{ (initProcessed r) with
             downloadError := some msg
             sqlUpdateStatus := SqlStatus.notAttemptedProcessingFailed }] }
  else
    let reason :=
      (if truthyStr r.versionDataUrl then "" else "No VersionDataUrl. ") ++
      (if truthyStr r.contentDocumentId then "" else "No ContentDocumentId. ") ++
      (if r.systemModstamp.isNotNone then "" else "No SystemModstamp. ")
    { s with processed := s.processed ++
        [{ (initProcessed r) with
           downloadError := some ("Skipped: " ++ pyStrip reason)
           sqlUpdateStatus := SqlStatus.notAttemptedMissingData }] }

/-- Initial run state over a given sink table and stored watermark. -/
def cvInit (sink0 : List CVSinkRow) (st0 : Option SyncState) : CVState :=
  { processed := []
    batch := []
    flushCount := 0
    sink := sink0
    syncState := st0
    log := [] }

/-- Embeds a whole ContentVersion run body: the record loop followed by the
final flush of any partial batch (lines 420-465). -/
def cvRunState (env : CVEnv) (sink0 : List CVSinkRow) (st0 : Option SyncState)
    (records : List CVRecord) : CVState :=
  let s := records.foldl (cvStep env) (cvInit sink0 st0)
  if s.batch.isEmpty then s
  else
    let fr := cvFlush (env.dbOk s.flushCount) (env.wmOk s.flushCount) true
      s.sink s.syncState s.processed s.batch
    { processed := fr.processed
      batch := []
      flushCount := s.flushCount + 1
      sink := fr.sink
      syncState := fr.syncState
      log := s.log ++ fr.log }

/-- Embeds the return value of a completed run (lines 467-476): when
`processed_records` is empty the function returns `None`, otherwise the list
itself. -/
def cvResult (env : CVEnv) (sink0 : List CVSinkRow) (st0 : Option SyncState)
    (records : List CVRecord) : Option (List CVProcessed) :=
  let s := cvRunState env sink0 st0 records
  if s.processed.isEmpty then none else some s.processed

/-- Embeds the top-level exception handling (lines 478-483): a critical error
(configuration, authentication, sink connection) makes the function return
`None` before or instead of the result of the loop. -/
def cvRunTop (critical : Bool) (env : CVEnv) (sink0 : List CVSinkRow)
    (st0 : Option SyncState) (records : List CVRecord) :
    Option (List CVProcessed) :=
  if critical then none else cvResult env sink0 st0 records

theorem execDbBatch_rollback (sink : List CVSinkRow) (batch : List CVBatchItem)
    (hne : batch ≠ []) : execDbBatch false sink batch = (sink, -1) := by
  cases batch with
  | nil => exact absurd rfl hne
  | cons b l => rfl

theorem cvFlush_db_error (wmOk final : Bool) (sink : List CVSinkRow)
    (st : Option SyncState) (proc : List CVProcessed) (batch : List CVBatchItem)
    (hne : batch ≠ []) :
    cvFlush false wmOk final sink st proc batch =
      { sink := sink
        syncState := st
        processed := proc.map (markPendingStatus
          (if final then SqlStatus.failedBatchedFinal else SqlStatus.failedBatched))
        syncStateCall := none
        log := []
        rowsAffected := -1 } := by
  cases batch with
  | nil => exact absurd rfl hne
  | cons b l => rfl

theorem cvFlush_success (wmOk final : Bool) (sink : List CVSinkRow)
    (st : Option SyncState) (proc : List CVProcessed) (batch : List CVBatchItem)
    (m : Nat) (rid : String) (hne : batch ≠ [])
    (hcomp : cvComputeMax batch = some (m, rid)) :
    cvFlush true wmOk final sink st proc batch =
      { sink := applyCVUpdate sink batch
        syncState := (updateSyncState wmOk cvStateName st rid m).1
        processed := proc.map (markPendingSuccess
          (if final then SqlStatus.successBatchedFinal else SqlStatus.successBatched) m)
        syncStateCall := some (rid, m)
        log := (updateSyncState wmOk cvStateName st rid m).2.2
        rowsAffected := Int.ofNat (cvRowcount sink batch) } := by
  have hra : execDbBatch true sink batch =
      (applyCVUpdate sink batch, Int.ofNat (cvRowcount sink batch)) := by
    cases batch with
    | nil => exact absurd rfl hne
    | cons b l => rfl
  have hpos : (0 : Int) ≤ Int.ofNat (cvRowcount sink batch) := Int.ofNat_nonneg _
  simp only [cvFlush, hra, hcomp, if_pos hpos]

/-- C1: For every batch whose sink commit succeeds, the watermark
subsequently written by `_update_sync_state` is the maximum modification
timestamp among the rows of the batch paired with the record id of the first row
(in batch order) attaining this maximum — the scan uses a strict `>` so ties
keep the first-seen row — and `_update_sync_state` is called only on the
successful-commit path, never after a failed commit.  The last conjunct
states the same maximum/first-tie property for the identical scan in the
ContentDocumentLink flush. -/
theorem c1_watermark_max_first_seen (wmOk final : Bool) (sink : List CVSinkRow)
    (st : Option SyncState) (proc : List CVProcessed) (batch : List CVBatchItem)
    (hne : batch ≠ [])
    (hp : ∀ b ∈ batch, b.systemModstamp.parse.isSome = true) :
    (∃ b₀, batch.find? (fun b =>
          decide (b.systemModstamp.parse = some (cvBatchMaxTs batch))) = some b₀ ∧
        b₀.systemModstamp.parse = some (cvBatchMaxTs batch) ∧
        (∀ b ∈ batch, ∀ t, b.systemModstamp.parse = some t → t ≤ cvBatchMaxTs batch) ∧
        (cvFlush true wmOk final sink st proc batch).syncStateCall =
          some (b₀.contentVersionId, cvBatchMaxTs batch) ∧
        (wmOk = true → (cvFlush true wmOk final sink st proc batch).syncState =
          some { lastRecordId := b₀.contentVersionId
                 lastSystemModstamp := cvBatchMaxTs batch })) ∧
    ((cvFlush false wmOk final sink st proc batch).syncStateCall = none ∧
      (cvFlush false wmOk final sink st proc batch).syncState = st) ∧
    (∀ cb : List CDLRow, cb ≠ [] →
      ∃ c₀, cb.find? (fun c =>
          decide (some c.systemModstamp = some (cdlBatchMaxTs cb))) = some c₀ ∧
        cdlComputeMax cb = some (cdlBatchMaxTs cb, c₀.id)) := by
  obtain ⟨b₀, hfind, hts0, hcomp⟩ :=
    computeMaxBy_spec (fun b => b.systemModstamp.parse)
      (fun b => b.contentVersionId) batch hne hp
  have hcv : cvComputeMax batch = some (cvBatchMaxTs batch, b₀.contentVersionId) := hcomp
  refine ⟨⟨b₀, hfind, hts0, ?_, ?_, ?_⟩, ⟨?_, ?_⟩, ?_⟩
  · intro b hb t ht
    have h := getD_le_maxTsBy (fun b => b.systemModstamp.parse) batch b hb
    simp only [ht, Option.getD_some] at h
    exact h
  · rw [cvFlush_success wmOk final sink st proc batch (cvBatchMaxTs batch)
      b₀.contentVersionId hne hcv]
  · intro hwm
    subst hwm
    rw [cvFlush_success true final sink st proc batch (cvBatchMaxTs batch)
      b₀.contentVersionId hne hcv]
    rfl
  · rw [cvFlush_db_error wmOk final sink st proc batch hne]
  · rw [cvFlush_db_error wmOk final sink st proc batch hne]
  · intro cb hcb
    obtain ⟨c₀, hf, _, hcm⟩ :=
      computeMaxBy_spec (fun r => some r.systemModstamp) (fun r => r.id) cb hcb
        (fun c _ => rfl)
    exact ⟨c₀, hf, hcm⟩

def c1Batch : List CVBatchItem :=
  [{ azureBlobUrl := "u1", contentDocumentId := "d1", systemModstamp := PyTS.ts 100, contentVersionId := "a" },
   { azureBlobUrl := "u2", contentDocumentId := "d2", systemModstamp := PyTS.ts 300, contentVersionId := "b" },
   { azureBlobUrl := "u3", contentDocumentId := "d3", systemModstamp := PyTS.ts 300, contentVersionId := "c" }]

/-- Witness for C1 on a concrete three-row batch with a timestamp tie: the
watermark call carries (record "b", 300), the first row attaining the
maximum, and the failed-commit flush never calls `_update_sync_state`. -/
theorem c1_watermark_max_first_seen_witness :
    (cvFlush true true false [] none [] c1Batch).syncStateCall = some ("b", 300) ∧
    (cvFlush false true false [] none [] c1Batch).syncStateCall = none := by
  obtain ⟨⟨b₀, hfind, hts0, hle, hcall, hstate⟩, ⟨hnone, hkeep⟩, hcdl⟩ :=
    c1_watermark_max_first_seen true false [] none [] c1Batch (by decide) (by decide)
  have hb : c1Batch.find? (fun b =>
      decide (b.systemModstamp.parse = some (cvBatchMaxTs c1Batch))) =
      some { azureBlobUrl := "u2", contentDocumentId := "d2"
             systemModstamp := PyTS.ts 300, contentVersionId := "b" } := by decide
  rw [hfind] at hb
  have hbeq := Option.some.inj hb
  subst hbeq
  constructor
  · rw [hcall]; decide
  · exact hnone

/-- C2: For every batch whose single set-valued statement raises a database
error, the transaction is rolled back so that none of the rows of the batch is
applied to the sink, and the watermark is not advanced on that flush:
`_update_sync_state` is not called, leaving the stored watermark exactly as
it was before the batch. -/
theorem c2_failed_commit_rolls_back (wmOk final : Bool) (sink : List CVSinkRow)
    (st : Option SyncState) (proc : List CVProcessed) (batch : List CVBatchItem)
    (hne : batch ≠ []) :
    execDbBatch false sink batch = (sink, -1) ∧
    (cvFlush false wmOk final sink st proc batch).sink = sink ∧
    (cvFlush false wmOk final sink st proc batch).syncState = st ∧
    (cvFlush false wmOk final sink st proc batch).syncStateCall = none := by
  refine ⟨execDbBatch_rollback sink batch hne, ?_, ?_, ?_⟩ <;>
    rw [cvFlush_db_error wmOk final sink st proc batch hne]

def c2Batch : List CVBatchItem :=
  [{ azureBlobUrl := "u9", contentDocumentId := "d9", systemModstamp := PyTS.ts 900, contentVersionId := "z" }]

def c2Sink : List CVSinkRow := [{ contentDocumentId := "d9", azureBlobUrl := none }]

def c2St : Option SyncState := some { lastRecordId := "w", lastSystemModstamp := 7 }

/-- Witness for C2: a concrete one-row batch whose statement fails leaves
the sink row and the stored watermark untouched and never calls
`_update_sync_state`. -/
theorem c2_failed_commit_rolls_back_witness :
    execDbBatch false c2Sink c2Batch = (c2Sink, -1) ∧
    (cvFlush false true false c2Sink c2St [] c2Batch).syncState = c2St ∧
    (cvFlush false true false c2Sink c2St [] c2Batch).syncStateCall = none :=
  ⟨(c2_failed_commit_rolls_back true false c2Sink c2St [] c2Batch (by decide)).1,
   (c2_failed_commit_rolls_back true false c2Sink c2St [] c2Batch (by decide)).2.2.1,
   (c2_failed_commit_rolls_back true false c2Sink c2St [] c2Batch (by decide)).2.2.2⟩

theorem list_map_id_of {β : Type} (f : β → β) (l : List β)
    (h : ∀ u ∈ l, f u = u) : l.map f = l := by
  induction l with
  | nil => rfl
  | cons a l ih =>
    rw [List.map_cons, h a (List.mem_cons_self a l),
      ih (fun u hu => h u (List.mem_cons_of_mem a hu))]

theorem cdlMergeRow_of_any_false (sink : List CDLRow) (src : CDLRow)
    (hany : sink.any (fun t => decide (t.id = src.id)) = false) :
    cdlMergeRow sink src = sink ++ [src] := by
  unfold cdlMergeRow
  rw [hany]
  rfl

theorem cdlMergeRow_of_any_true (sink : List CDLRow) (src : CDLRow)
    (hany : sink.any (fun t => decide (t.id = src.id)) = true) :
    cdlMergeRow sink src = sink.map (fun t =>
      if t.id = src.id ∧ t.systemModstamp < src.systemModstamp then src else t) := by
  unfold cdlMergeRow
  rw [hany]
  rfl

theorem cdlMergeRow_insert (sink : List CDLRow) (src : CDLRow)
    (h : ∀ u ∈ sink, u.id ≠ src.id) : cdlMergeRow sink src = sink ++ [src] := by
  apply cdlMergeRow_of_any_false
  rw [List.any_eq_false]
  intro t ht
  simp [h t ht]

theorem cdlMergeRow_matched (sink : List CDLRow) (src : CDLRow) (i : Nat)
    (hi : i < sink.length) (hid : sink[i].id = src.id) :
    (cdlMergeRow sink src).length = sink.length ∧
    (cdlMergeRow sink src)[i]? =
      some (if sink[i].systemModstamp < src.systemModstamp then src
        else sink[i]) := by
  have hmem : sink[i] ∈ sink := List.getElem_mem hi
  have hany : sink.any (fun t => decide (t.id = src.id)) = true :=
    List.any_eq_true.mpr ⟨sink[i], hmem, by simp [hid]⟩
  rw [cdlMergeRow_of_any_true sink src hany]
  refine ⟨List.length_map _ _, ?_⟩
  rw [List.getElem?_map, List.getElem?_eq_getElem hi]
  simp [hid]

theorem cdlMergeRow_lww (sink : List CDLRow) (r₁ r₂ : CDLRow)
    (hid : r₁.id = r₂.id) (hfresh : ∀ u ∈ sink, u.id ≠ r₁.id)
    (hlt : r₁.systemModstamp < r₂.systemModstamp) :
    cdlMergeRow (cdlMergeRow sink r₁) r₂ = sink ++ [r₂] ∧
    cdlMergeRow (cdlMergeRow sink r₂) r₁ = sink ++ [r₂] := by
  have hfresh₂ : ∀ u ∈ sink, u.id ≠ r₂.id :=
    fun u hu h2 => hfresh u hu (h2.trans hid.symm)
  have h₁ : cdlMergeRow sink r₁ = sink ++ [r₁] := cdlMergeRow_insert sink r₁ hfresh
  have h₂ : cdlMergeRow sink r₂ = sink ++ [r₂] := cdlMergeRow_insert sink r₂ hfresh₂
  constructor
  · rw [h₁]
    have hany : (sink ++ [r₁]).any (fun t => decide (t.id = r₂.id)) = true := by
      rw [List.any_append]
      simp [hid]
    rw [cdlMergeRow_of_any_true _ _ hany, List.map_append]
    have hsink : sink.map (fun t =>
        if t.id = r₂.id ∧ t.systemModstamp < r₂.systemModstamp then r₂ else t) = sink :=
      list_map_id_of _ sink (fun u hu => if_neg (fun hc => hfresh₂ u hu hc.1))
    rw [hsink]
    simp [hid, hlt]
  · rw [h₂]
    have hany : (sink ++ [r₂]).any (fun t => decide (t.id = r₁.id)) = true := by
      rw [List.any_append]
      simp [hid.symm]
    rw [cdlMergeRow_of_any_true _ _ hany, List.map_append]
    have hsink : sink.map (fun t =>
        if t.id = r₁.id ∧ t.systemModstamp < r₁.systemModstamp then r₁ else t) = sink :=
      list_map_id_of _ sink (fun u hu => if_neg (fun hc => hfresh u hu hc.1))
    rw [hsink]
    simp [Nat.not_lt.mpr (Nat.le_of_lt hlt)]

def c3Batch : List CVBatchItem :=
  [{ azureBlobUrl := "https://acct.blob.core.windows.net/cont/cv1_f.bin", contentDocumentId := "doc1", systemModstamp := PyTS.ts 100, contentVersionId := "cv1" }]

/-- C3 counterexample: a non-empty attachment-metadata batch whose single
row has a `ContentDocumentId` matching no sink row leaves the sink exactly empty
after a successful commit — the row is silently dropped, not inserted,
because `_execute_db_batch` issues an `UPDATE ... JOIN (VALUES ...)`, not an
upsert. -/
theorem c3_update_join_drops_unmatched_row :
    (execDbBatch true [] c3Batch).1 = [] ∧
    (execDbBatch true [] c3Batch).2 = 0 ∧
    ((execDbBatch true [] c3Batch).1.find?
      (fun t => decide (t.contentDocumentId = "doc1"))) = none := by
  decide

/-- C3 amended: every non-empty flush still executes one set-valued
statement in one transaction, and the link-row MERGE has insert-if-absent
upsert semantics; but the attachment-metadata statement only updates
matching sink rows — it never inserts (the multiset of sink keys is
preserved), so an unmatched attachment-metadata row is dropped. -/
theorem c3_amended_attachment_update_vs_link_upsert :
    (∀ (sink : List CVSinkRow) (batch : List CVBatchItem),
        (applyCVUpdate sink batch).map (fun t => t.contentDocumentId) =
          sink.map (fun t => t.contentDocumentId)) ∧
    (∀ (sink : List CVSinkRow) (batch : List CVBatchItem), batch ≠ [] →
        execDbBatch true sink batch =
          (applyCVUpdate sink batch, Int.ofNat (cvRowcount sink batch))) ∧
    (∀ (sink : List CDLRow) (src : CDLRow), (∀ u ∈ sink, u.id ≠ src.id) →
        cdlMergeRow sink src = sink ++ [src]) := by
  refine ⟨?_, ?_, fun sink src h => cdlMergeRow_insert sink src h⟩
  · intro sink batch
    unfold applyCVUpdate
    rw [List.map_map]
    apply List.map_congr_left
    intro t _
    cases hfind : batch.find?
        (fun v => decide (v.contentDocumentId = t.contentDocumentId)) with
    | none => simp [Function.comp, hfind]
    | some v => simp [Function.comp, hfind]
  · intro sink batch hne
    cases batch with
    | nil => exact absurd rfl hne
    | cons b l => rfl

def c3Row : CDLRow :=
  { id := "L9", linkedEntityId := some "e9", contentDocumentId := "doc9", isDeleted := false, systemModstamp := 50, shareType := some "V", visibility := some "AllUsers" }

/-- Witness for the amended C3 at concrete inputs. -/
theorem c3_amended_attachment_update_vs_link_upsert_witness :
    execDbBatch true [] c3Batch =
      (applyCVUpdate [] c3Batch, Int.ofNat (cvRowcount [] c3Batch)) ∧
    cdlMergeRow [] c3Row = [] ++ [c3Row] :=
  ⟨c3_amended_attachment_update_vs_link_upsert.2.1 [] c3Batch (by decide),
   c3_amended_attachment_update_vs_link_upsert.2.2 [] c3Row
     (fun u hu => absurd hu (List.not_mem_nil u))⟩

def c4Env : CVEnv :=
  { batchSize := 1, dbOk := fun k => k == 0, wmOk := fun _ => true, storageAccount := "acct", containerName := "cont" }

def c4r1 : CVRecord :=
  { id := "r1", contentDocumentId := some "d1", versionDataUrl := some "u1", title := none, fileExtension := none, systemModstamp := PyTS.ts 100, transfer := TransferOutcome.ok }

def c4r2 : CVRecord :=
  { id := "r2", contentDocumentId := some "d2", versionDataUrl := some "u2", title := none, fileExtension := none, systemModstamp := PyTS.ts 200, transfer := TransferOutcome.ok }

/-- C4 refuted on the code: with batch size 1 and two transferable records,
the first flush (the batch of record r1) commits successfully and advances the
watermark to (r1, 100), yet r1 — appended to `processed_records` only after
the status rescan of the flush — is later marked `Failed (Batched)` by the
failed flush of the second batch, and r2, whose own batch failed, is returned still in
`Pending Batch Update`.  The flush-triggering record thus receives the
outcome of a later batch or none at all. -/
theorem c4_flush_trigger_record_misattributed :
    ((cvRunState c4Env [] none [c4r1, c4r2]).processed.map
        (fun p => (p.src.id, p.sqlUpdateStatus))) =
      [("r1", SqlStatus.failedBatched), ("r2", SqlStatus.pendingBatchUpdate)] ∧
    (cvRunState c4Env [] none [c4r1, c4r2]).syncState =
      some { lastRecordId := "r1", lastSystemModstamp := 100 } ∧
    c4Env.dbOk 0 = true ∧ c4Env.dbOk 1 = false := by
  decide

/-- C5: per-row semantics of the ContentDocumentLink MERGE — insert when no
sink row has the incoming `Id`; when the row at index `i` matches, the sink
keeps its length and position `i` holds the incoming row iff the stored
timestamp is strictly older, else the old row unchanged — and the
last-writer-wins consequence: two versions of one `Id` with timestamps
T1 < T2 applied in either order leave the sink holding the T2 version. -/
theorem c5_cdl_merge_last_writer_wins :
    (∀ (sink : List CDLRow) (src : CDLRow), (∀ u ∈ sink, u.id ≠ src.id) →
        cdlMergeRow sink src = sink ++ [src]) ∧
    (∀ (sink : List CDLRow) (src : CDLRow) (i : Nat) (hi : i < sink.length),
        sink[i].id = src.id →
        (cdlMergeRow sink src).length = sink.length ∧
        (cdlMergeRow sink src)[i]? =
          some (if sink[i].systemModstamp < src.systemModstamp then src
            else sink[i])) ∧
    (∀ (sink : List CDLRow) (r₁ r₂ : CDLRow), r₁.id = r₂.id →
        (∀ u ∈ sink, u.id ≠ r₁.id) → r₁.systemModstamp < r₂.systemModstamp →
        cdlMergeRow (cdlMergeRow sink r₁) r₂ = sink ++ [r₂] ∧
        cdlMergeRow (cdlMergeRow sink r₂) r₁ = sink ++ [r₂]) :=
  ⟨cdlMergeRow_insert,
   fun sink src i hi hid => cdlMergeRow_matched sink src i hi hid,
   cdlMergeRow_lww⟩

def c5Row1 : CDLRow :=
  { id := "L1", linkedEntityId := some "e1", contentDocumentId := "D1", isDeleted := false, systemModstamp := 10, shareType := some "V", visibility := some "AllUsers" }

def c5Row2 : CDLRow :=
  { id := "L1", linkedEntityId := some "e2", contentDocumentId := "D1", isDeleted := true, systemModstamp := 20, shareType := some "I", visibility := some "InternalUsers" }

/-- Witness for C5: the two versions of link `L1` (timestamps 10 < 20) end
as the timestamp-20 version in either processing order. -/
theorem c5_cdl_merge_last_writer_wins_witness :
    cdlMergeRow (cdlMergeRow [] c5Row1) c5Row2 = [] ++ [c5Row2] ∧
    cdlMergeRow (cdlMergeRow [] c5Row2) c5Row1 = [] ++ [c5Row2] :=
  c5_cdl_merge_last_writer_wins.2.2 [] c5Row1 c5Row2 rfl
    (fun u hu => absurd hu (List.not_mem_nil u)) (by decide)

def c6EnvT : CVEnv :=
  { batchSize := 3, dbOk := fun _ => true, wmOk := fun _ => true, storageAccount := "acct", containerName := "cont" }

def c6EnvF : CVEnv :=
  { batchSize := 3, dbOk := fun _ => true, wmOk := fun _ => false, storageAccount := "acct", containerName := "cont" }

def c6r1 : CVRecord :=
  { id := "r1", contentDocumentId := some "d1", versionDataUrl := some "u1", title := none, fileExtension := none, systemModstamp := PyTS.ts 100, transfer := TransferOutcome.ok }

def c6r2 : CVRecord :=
  { id := "r2", contentDocumentId := some "d2", versionDataUrl := some "u2", title := none, fileExtension := none, systemModstamp := PyTS.ts 200, transfer := TransferOutcome.ok }

/-- C6 counterexample: a concrete run whose batch commit succeeds but whose
watermark upsert fails returns exactly the same result — the same records
with the same `Success (Batched - Final)` statuses and recorded batch
watermark — as the run whose upsert succeeds; only the stored watermark and
the console log differ.  The degraded condition is therefore not reflected
in the reported outcome of the run, refuting that part of the claim. -/
theorem c6_degraded_state_not_in_reported_outcome :
    cvResult c6EnvF [] none [c6r1, c6r2] = cvResult c6EnvT [] none [c6r1, c6r2] ∧
    (cvRunState c6EnvF [] none [c6r1, c6r2]).syncState = none ∧
    (cvRunState c6EnvT [] none [c6r1, c6r2]).syncState =
      some { lastRecordId := "r2", lastSystemModstamp := 200 } ∧
    (cvRunState c6EnvF [] none [c6r1, c6r2]).log =
      [LogEvent.syncStateError "ContentVersionSync"] := by
  decide

/-- C6 amended: when a batch commit succeeds but the subsequent watermark
upsert fails, `_update_sync_state` rolls back (the stored watermark is
unchanged) and emits a dedicated sync-state error log line distinguishable
from other failures, and the run continues; but the caller ignores its
Boolean result, so the degraded condition is not reflected in the reported
outcome: the processed records and the call arguments are identical
to the success case. -/
theorem c6_amended_watermark_failure_logged_not_reported (final : Bool)
    (sink : List CVSinkRow) (st : Option SyncState) (proc : List CVProcessed)
    (batch : List CVBatchItem) (hne : batch ≠ [])
    (hp : ∀ b ∈ batch, b.systemModstamp.parse.isSome = true) :
    (cvFlush true false final sink st proc batch).syncState = st ∧
    (cvFlush true false final sink st proc batch).log =
      [LogEvent.syncStateError cvStateName] ∧
    (cvFlush true false final sink st proc batch).processed =
      (cvFlush true true final sink st proc batch).processed ∧
    (cvFlush true false final sink st proc batch).syncStateCall =
      (cvFlush true true final sink st proc batch).syncStateCall := by
  obtain ⟨b₀, _, _, hcomp⟩ :=
    computeMaxBy_spec (fun b => b.systemModstamp.parse)
      (fun b => b.contentVersionId) batch hne hp
  have hcv : cvComputeMax batch = some (cvBatchMaxTs batch, b₀.contentVersionId) := hcomp
  rw [cvFlush_success false final sink st proc batch (cvBatchMaxTs batch)
      b₀.contentVersionId hne hcv,
    cvFlush_success true final sink st proc batch (cvBatchMaxTs batch)
      b₀.contentVersionId hne hcv]
  exact ⟨rfl, rfl, rfl, rfl⟩

def c6Batch : List CVBatchItem :=
  [{ azureBlobUrl := "u6", contentDocumentId := "d6", systemModstamp := PyTS.ts 600, contentVersionId := "w6" }]

/-- Witness for the amended C6 at a concrete one-row batch. -/
theorem c6_amended_watermark_failure_logged_not_reported_witness :
    (cvFlush true false false [] none [] c6Batch).syncState = none ∧
    (cvFlush true false false [] none [] c6Batch).processed =
      (cvFlush true true false [] none [] c6Batch).processed :=
  ⟨(c6_amended_watermark_failure_logged_not_reported false [] none [] c6Batch
      (by decide) (by decide)).1,
   (c6_amended_watermark_failure_logged_not_reported false [] none [] c6Batch
      (by decide) (by decide)).2.2.1⟩

def c7Env : CVEnv :=
  { batchSize := 2, dbOk := fun _ => true, wmOk := fun _ => true, storageAccount := "acct", containerName := "cont" }

def c7g1 : CVRecord :=
  { id := "g1", contentDocumentId := some "dg1", versionDataUrl := some "ug1", title := none, fileExtension := none, systemModstamp := PyTS.ts 100, transfer := TransferOutcome.ok }

def c7bad : CVRecord :=
  { id := "bad", contentDocumentId := some "dbad", versionDataUrl := some "ubad", title := none, fileExtension := none, systemModstamp := PyTS.ts 150, transfer := TransferOutcome.netErr "connection reset" }

def c7g2 : CVRecord :=
  { id := "g2", contentDocumentId := some "dg2", versionDataUrl := some "ug2", title := none, fileExtension := none, systemModstamp := PyTS.ts 200, transfer := TransferOutcome.ok }

/-- C7: a record whose download or upload fails (transport error or
unexpected exception) has the error recorded on that record only — the state
is otherwise unchanged, so the record joins no database batch — and in the
concrete mixed run the two healthy siblings are still batched, committed,
and advance the watermark from their timestamps (max 200), while only the
failing record carries the error. -/
theorem c7_transfer_failure_isolated :
    (∀ (env : CVEnv) (s : CVState) (r : CVRecord) (msg : String),
        r.transfer = TransferOutcome.netErr msg →
        truthyStr r.versionDataUrl = true → truthyStr r.contentDocumentId = true →
        r.systemModstamp.isNotNone = true →
        cvStep env s r = { s with processed := s.processed ++
          [{ (initProcessed r) with
             downloadError := some msg
             sqlUpdateStatus := SqlStatus.notAttemptedDownloadFailed }] }) ∧
    (∀ (env : CVEnv) (s : CVState) (r : CVRecord) (msg : String),
        r.transfer = TransferOutcome.procErr msg →
        truthyStr r.versionDataUrl = true → truthyStr r.contentDocumentId = true →
        r.systemModstamp.isNotNone = true →
        cvStep env s r = { s with processed := s.processed ++
          [{ (initProcessed r) with
             downloadError := some msg
             sqlUpdateStatus := SqlStatus.notAttemptedProcessingFailed }] }) ∧
    ((cvRunState c7Env [] none [c7g1, c7bad, c7g2]).processed.map
        (fun p => (p.src.id, p.sqlUpdateStatus, p.downloadError))) =
      [("g1", SqlStatus.successBatched, some "None"),
       ("bad", SqlStatus.notAttemptedDownloadFailed, some "connection reset"),
       ("g2", SqlStatus.pendingBatchUpdate, some "None")] ∧
    (cvRunState c7Env [] none [c7g1, c7bad, c7g2]).syncState =
      some { lastRecordId := "g2", lastSystemModstamp := 200 } := by
  refine ⟨?_, ?_, by decide, by decide⟩
  · intro env s r msg htr h1 h2 h3
    have hcond : (truthyStr r.versionDataUrl && truthyStr r.contentDocumentId &&
        PyTS.isNotNone r.systemModstamp) = true := by rw [h1, h2, h3]; rfl
    simp only [cvStep, hcond, htr, if_true]
  · intro env s r msg htr h1 h2 h3
    have hcond : (truthyStr r.versionDataUrl && truthyStr r.contentDocumentId &&
        PyTS.isNotNone r.systemModstamp) = true := by rw [h1, h2, h3]; rfl
    simp only [cvStep, hcond, htr, if_true]

def c7State : CVState := cvInit [] none

/-- Witness for the universally quantified parts of C7 at a concrete record. -/
theorem c7_transfer_failure_isolated_witness :
    cvStep c7Env c7State c7bad =
      { c7State with processed := c7State.processed ++
        [{ (initProcessed c7bad) with
           downloadError := some "connection reset"
           sqlUpdateStatus := SqlStatus.notAttemptedDownloadFailed }] } :=
  c7_transfer_failure_isolated.1 c7Env c7State c7bad "connection reset" rfl rfl rfl rfl

def c8Env : CVEnv :=
  { batchSize := 50, dbOk := fun _ => true, wmOk := fun _ => true, storageAccount := "acct", containerName := "cont" }

/-- C8 counterexample: the concrete run that completes successfully over an
empty record stream returns `none` — exactly the same no-result signal as a
critically aborted run — instead of an empty structured result (the source
hits `if not processed_records: return None`). -/
theorem c8_zero_records_returns_none :
    cvRunTop false c8Env [] none [] = none ∧
    cvRunTop true c8Env [] none [] = none :=
  ⟨rfl, rfl⟩

/-- C8 amended: a critically aborted run returns the no-result signal
`none`, but a run that completes successfully with zero matching records
also returns `none`, so the two outcomes are indistinguishable by return
value. -/
theorem c8_amended_none_for_abort_and_empty :
    (∀ (env : CVEnv) (sink0 : List CVSinkRow) (st0 : Option SyncState)
        (records : List CVRecord), cvRunTop true env sink0 st0 records = none) ∧
    (∀ (env : CVEnv) (sink0 : List CVSinkRow) (st0 : Option SyncState),
        cvRunTop false env sink0 st0 [] = none) :=
  ⟨fun _ _ _ _ => rfl, fun _ _ _ => rfl⟩

/-- C9 evaluated at the failing configurations: a non-positive or
unparseable batch size does not abort — it warns and falls back to 5 — but
an absent setting silently defaults to 50, so the fallback default is not
the same value as the absent-setting default, contradicting the claim and
the function docstrings ("defaults to 5 if not set or invalid"). -/
theorem c9_batch_size_default_mismatch :
    parseBatchSize (some "0") = (5, true) ∧
    parseBatchSize (some "abc") = (5, true) ∧
    parseBatchSize none = (50, false) ∧
    (parseBatchSize (some "0")).1 ≠ (parseBatchSize none).1 := by
  decide

/-- C10: a record whose SystemModstamp is absent (None) is classified as
missing data even when VersionDataUrl and ContentDocumentId are both
present: `DownloadError` records the skip reason, the status becomes
`Not Attempted (Missing Data)`, and the state is otherwise unchanged — in
particular the record never joins a database batch and no transfer is
attempted.  A non-null modification timestamp is thus a third required-field
precondition beyond the two the specification lists. -/
theorem c10_missing_modstamp_precondition (env : CVEnv) (s : CVState)
    (r : CVRecord) (h1 : truthyStr r.versionDataUrl = true)
    (h2 : truthyStr r.contentDocumentId = true)
    (h3 : r.systemModstamp = PyTS.null) :
    cvStep env s r = { s with processed := s.processed ++
      [{ (initProcessed r) with
         downloadError := some "Skipped: No SystemModstamp."
         sqlUpdateStatus := SqlStatus.notAttemptedMissingData }] } := by
  have hcond : (truthyStr r.versionDataUrl && truthyStr r.contentDocumentId &&
      PyTS.isNotNone r.systemModstamp) = false := by rw [h1, h2, h3]; rfl
  simp only [cvStep, hcond, h1, h2, h3, Bool.false_eq_true, if_false]
  rfl

def c10Env : CVEnv :=
  { batchSize := 4, dbOk := fun _ => true, wmOk := fun _ => true, storageAccount := "acct", containerName := "cont" }

def c10Rec : CVRecord :=
  { id := "m1", contentDocumentId := some "dm", versionDataUrl := some "um", title := none, fileExtension := none, systemModstamp := PyTS.null, transfer := TransferOutcome.ok }

/-- Witness for C10 at a concrete record with both other fields present. -/
theorem c10_missing_modstamp_precondition_witness :
    cvStep c10Env (cvInit [] none) c10Rec =
      { cvInit [] none with processed :=
        [{ (initProcessed c10Rec) with
           downloadError := some "Skipped: No SystemModstamp."
           sqlUpdateStatus := SqlStatus.notAttemptedMissingData }] } :=
  c10_missing_modstamp_precondition c10Env (cvInit [] none) c10Rec rfl rfl rfl

end LendzSync
